import Mathlib

/-!
Verification of the medication-reminder call-flow controller.

This file is a shallow embedding of the repository's core logic:
the response classifier, the retry policy, the call-flow controller
webhook handlers (`handleVoiceCall`, `handleGather`,
`handleStatusCallback`, `initiateCall`) and the TwiML generator
(`generateTwiml`).  Every definition is translated from the JavaScript
source (`src/controllers/callController.js` and
`src/services/twilioService.js`):

  - JavaScript strings stay `String`; `toLowerCase`, `includes` and the
    `trim() === ''` emptiness test are embedded character-wise
    (`toLowerStr`, `includesStr`, `isBlankStr`), since the source only
    applies them to ASCII text.
  - TwiML responses are embedded as a list of verbs (`say`, `gather`,
    `redirect`, `hangup`); a callback URL is embedded as its path plus
    its optional `retryCount` query parameter.
  - Each `await` on an external collaborator (the Mongo store, the
    Twilio client) is embedded as an environment field: a `Bool` for
    "this call succeeded" (the behaviour of its `catch` branch is the
    `false` case) or an `Option` for a fetched value.  Database writes record
    the update document passed to `CallLog.create` /
    `CallLog.findOneAndUpdate`.
  - The numeric query parameters (`retryCount`, `CallDuration`) are
    embedded as `Option Nat`: `parseInt(x || '0', 10)` with an absent
    field is `Option.getD · 0`.
-/

namespace MedReminder

/-- Boolean substring test on character lists: `substrB needle hay` is
true iff `needle` occurs contiguously inside `hay`.  Embeds JavaScript
`hay.includes(needle)`. -/
def substrB (needle : List Char) : List Char → Bool
  | [] => needle.isEmpty
  | c :: t => needle.isPrefixOf (c :: t) || substrB needle t

/-- JavaScript `s.includes(pat)` on strings. -/
def includesStr (s pat : String) : Bool := substrB pat.toList s.toList

/-- JavaScript `s.toLowerCase()` (character-wise; the source only
lower-cases ASCII transcripts). -/
def toLowerStr (s : String) : String := String.mk (s.toList.map Char.toLower)

/-- JavaScript `!s || s.trim() === ''`: the string has no
non-whitespace character. -/
def isBlankStr (s : String) : Bool := s.toList.all Char.isWhitespace

/-- Adherence verdicts, from the `adherenceStatus` enum of the call-log
schema (`src/models/callLog.js`). -/
inductive AdherenceStatus where
  | Full
  | Partial
  | None
  | Unclear
  | Unknown
deriving DecidableEq

/-- Message constant from `callController.js`. -/
def MEDICATION_REMINDER_MESSAGE : String :=
  "Hello, this is a reminder from your healthcare provider to confirm your medications for the day. Please confirm if you have taken your Aspirin, Cardivol, and Metformin today."

/-- Message constant from `callController.js`. -/
def VOICEMAIL_MESSAGE : String :=
  "We called to check on your medication but couldn\x27t reach you. Please call us back or take your medications if you haven\x27t done so."

/-- Message constant from `callController.js`. -/
def POSITIVE_RESPONSE_MESSAGE : String :=
  "Thank you for confirming you\x27ve taken your medications. Have a nice day."

/-- Message constant from `callController.js`. -/
def NEGATIVE_RESPONSE_MESSAGE : String :=
  "Thank you for letting us know. Please take your medications as prescribed. Your health provider will be notified about this. Have a nice day."

/-- Message constant from `callController.js`. -/
def PARTIAL_RESPONSE_MESSAGE : String :=
  "Thank you for your response. I\x27ve noted that you\x27ve taken some but not all of your medications. Please remember to take all your prescribed medications. Your health provider will be notified. Have a nice day."

/-- Message constant from `callController.js`. -/
def UNCLEAR_RESPONSE_MESSAGE : String :=
  "Thank you for your response. If you haven\x27t taken all your medications yet, please do so as prescribed. Have a nice day."

/-- Closing message spoken by `handleVoiceCall` once the retry cap is
reached. -/
def MAX_RETRIES_MESSAGE : String :=
  "We haven\x27t received a clear response. Your healthcare provider will be notified. Please remember to take your medications as prescribed. Thank you and have a nice day."

/-- Short re-ask spoken by `handleVoiceCall` on a retry. -/
def REPEAT_MESSAGE : String :=
  "I\x27m sorry, I didn\x27t catch that. Could you please repeat if you\x27ve taken your medications today?"

/-- Generic acknowledgment emitted by `handleGather` when building the
adherence reply throws. -/
def FALLBACK_ACK_MESSAGE : String :=
  "Thank you for your response. Have a nice day."

/-- Positive keyword list from `handleGather`. -/
def positiveKeywords : List String :=
  ["yes", "yeah", "yep", "yup", "taken", "did", "have", "already", "completed"]

/-- Negative keyword list from `handleGather`. -/
def negativeKeywords : List String :=
  ["no", "not", "haven\x27t", "didn\x27t", "don\x27t", "forgot", "later", "missed"]

/-- Medication-context keyword list from `handleGather`. -/
def medicationKeywords : List String :=
  ["medication", "medicine", "pill", "drug", "tablet", "aspirin", "cardivol", "metformin"]

/-- `positiveKeywords.some(k => responseLower.includes(k))` of
`handleGather`, on the lower-cased transcript. -/
def isPositiveResp (t : String) : Bool :=
  positiveKeywords.any fun k => includesStr (toLowerStr t) k

/-- `negativeKeywords.some(k => responseLower.includes(k))` of
`handleGather`. -/
def isNegativeResp (t : String) : Bool :=
  negativeKeywords.any fun k => includesStr (toLowerStr t) k

/-- `medicationKeywords.some(k => responseLower.includes(k))` of
`handleGather`. -/
def hasMedicationContext (t : String) : Bool :=
  medicationKeywords.any fun k => includesStr (toLowerStr t) k

/-- The classification chain of `handleGather` (lines 249-323): given
the raw transcript it produces the adherence verdict together with the
spoken reply chosen in the same branch. -/
def analyzeResponse (t : String) : AdherenceStatus × String :=
  let isPositive := isPositiveResp t
  let isNegative := isNegativeResp t
  let hasMedCtx := hasMedicationContext t
  if isNegative && !isPositive then
    (AdherenceStatus.None, NEGATIVE_RESPONSE_MESSAGE)
  else if isPositive && !isNegative then
    (AdherenceStatus.Full, POSITIVE_RESPONSE_MESSAGE)
  else if isPositive && isNegative then
    (AdherenceStatus.Partial, PARTIAL_RESPONSE_MESSAGE)
  else if !hasMedCtx then
    (AdherenceStatus.Unclear, UNCLEAR_RESPONSE_MESSAGE)
  else
    (AdherenceStatus.Unclear, UNCLEAR_RESPONSE_MESSAGE)

/-- The Response Classifier: verdict component of `analyzeResponse`. -/
def classify (t : String) : AdherenceStatus := (analyzeResponse t).1

/-- Spoken-reply component of `analyzeResponse`. -/
def adherenceReply (t : String) : String := (analyzeResponse t).2

/-- A webhook callback URL: its path and its optional `retryCount`
query parameter (the only query parameter the controller ever puts on
or reads from these URLs). -/
structure Url where
  path : String
  retryParam : Option Nat
deriving DecidableEq

/-- One TwiML verb of a voice response. -/
inductive TwimlVerb where
  | say (text : String)
  | gather (action : Url) (prompt : String)
  | redirect (target : Url)
  | hangup
deriving DecidableEq

/-- The gather action URL built in `twilioService.generateTwiml`:
`${webhookUrl}/api/twilio/gather`, with no query parameter. -/
def gatherUrl : Url := { path := "/api/twilio/gather", retryParam := Option.none }

/-- A voice-handler URL `${webhookUrl}/api/twilio/voice`, optionally
with a `retryCount` query parameter. -/
def voiceUrl (retry : Option Nat) : Url := { path := "/api/twilio/voice", retryParam := retry }

/-- `twilioService.generateTwiml`: a speech gather (whose action URL
carries no retry count) around the prompt, followed by a redirect to
the voice handler carrying `nextRetryCount`. -/
def generateTwiml (message : String) (nextRetryCount : Nat) : List TwimlVerb :=
  [TwimlVerb.gather gatherUrl message,
   TwimlVerb.redirect (voiceUrl (Option.some nextRetryCount))]

/-- `handleVoiceCall` (callController.js lines 120-178): the
voice-leg-entry handler, as a function of the parsed `retryCount`
query parameter.  The max-retries check comes first; otherwise the
prompt is chosen by retry count and wrapped by `generateTwiml` with
`retryCount + 1`. -/
def handleVoiceCall (retryCount : Nat) : List TwimlVerb :=
  if retryCount ≥ 2 then
    [TwimlVerb.say MAX_RETRIES_MESSAGE, TwimlVerb.hangup]
  else
    let message := if retryCount = 0 then MEDICATION_REMINDER_MESSAGE else REPEAT_MESSAGE
    generateTwiml message (retryCount + 1)

/-- An update document passed to `CallLog.create` or
`CallLog.findOneAndUpdate`; absent fields are `Option.none`.  The schema
(`callLog.js`) also has an `adherenceStatus` column, so the document
supports it. -/
structure DbUpdate where
  callSid : String
  status : Option String := Option.none
  patientResponse : Option String := Option.none
  adherenceStatus : Option AdherenceStatus := Option.none
  recordingUrl : Option String := Option.none
  patientPhoneNumber : Option String := Option.none
deriving DecidableEq

/-- A gather-result webhook request: `SpeechResult`, `CallSid` and the
`retryCount` query parameter (absent when the request came from the
gather action URL, which carries none). -/
structure GatherRequest where
  speechResult : String
  callSid : String
  retryCountParam : Option Nat
deriving DecidableEq

/-- Collaborator outcomes for one `handleGather` run: whether the
`CallLog.findOneAndUpdate` write succeeds, and whether the
classify/reply-build step completes without throwing (the `false` case
is the inner `catch`). -/
structure GatherEnv where
  dbUpdateOk : Bool
  replyBuildOk : Bool
deriving DecidableEq

/-- Observable outcome of `handleGather`: the TwiML sent back, the
successful store writes, and whether the classification logic ran. -/
structure GatherOutput where
  twiml : List TwimlVerb
  dbWrites : List DbUpdate
  classifierInvoked : Bool
deriving DecidableEq

/-- `handleGather` (callController.js lines 188-344).  A blank
transcript redirects to the voice handler with `retryCount + 1` and
consults nothing else.  Otherwise the handler records
`status = Answered` with the transcript (write failure is caught and
swallowed), runs the classification chain and speaks the selected
reply, or, if the reply-build step throws, the generic acknowledgment;
either way the leg ends with a hangup. -/
def handleGather (req : GatherRequest) (env : GatherEnv) : GatherOutput :=
  if isBlankStr req.speechResult then
    let currentRetryCount := req.retryCountParam.getD 0
    { twiml := [TwimlVerb.redirect (voiceUrl (Option.some (currentRetryCount + 1)))],
      dbWrites := [],
      classifierInvoked := false }
  else
    let answeredWrites : List DbUpdate :=
      if env.dbUpdateOk then
        [{ callSid := req.callSid, status := Option.some "Answered",
           patientResponse := Option.some req.speechResult }]
      else []
    if env.replyBuildOk then
      { twiml := [TwimlVerb.say (adherenceReply req.speechResult), TwimlVerb.hangup],
        dbWrites := answeredWrites,
        classifierInvoked := true }
    else
      { twiml := [TwimlVerb.say FALLBACK_ACK_MESSAGE, TwimlVerb.hangup],
        dbWrites := answeredWrites,
        classifierInvoked := true }

/-- A status-callback webhook request: `CallSid`, `CallStatus`, `To`,
`AnsweredBy` (absent when machine detection reports nothing) and
`CallDuration` (absent parses as 0). -/
structure StatusRequest where
  callSid : String
  callStatus : String
  toNumber : String
  answeredBy : Option String
  callDuration : Option Nat
deriving DecidableEq

/-- Collaborator outcomes for one `handleStatusCallback` run: success
of the three store writes, success of `sendSms`, and the value returned
by `getRecordingUrl` (`Option.none` both when there is no recording and
when the fetch failed, matching its own catch-and-return-null). -/
structure StatusEnv where
  dbStatusOk : Bool
  smsOk : Bool
  dbSmsOk : Bool
  recordingResult : Option String
  dbRecordingOk : Bool
deriving DecidableEq

/-- Observable outcome of `handleStatusCallback`: the `sendSms`
invocations (destination, body), the successful store writes in
program order, whether `getRecordingUrl` was invoked, and the HTTP
response returned to the provider. -/
structure StatusOutput where
  smsSends : List (String × String)
  dbWrites : List DbUpdate
  recordingFetched : Bool
  responseStatus : Nat
  responseBody : String
deriving DecidableEq

/-- The status list of `handleStatusCallback` line 385. -/
def terminalStatuses : List String :=
  ["no-answer", "busy", "failed", "canceled", "completed"]

/-- The shared SMS-fallback body of both fallback branches of
`handleStatusCallback`: send the voicemail SMS, and on send success
record `status = SMS Sent` (both the send failure and the write
failure are caught and swallowed). -/
def smsFallbackBranch (req : StatusRequest) (env : StatusEnv) :
    List (String × String) × List DbUpdate :=
  ([(req.toNumber, VOICEMAIL_MESSAGE)],
   if env.smsOk && env.dbSmsOk then
     [{ callSid := req.callSid, status := Option.some "SMS Sent" }]
   else [])

/-- `handleStatusCallback` (callController.js lines 354-467).  The
reported status is persisted unconditionally (failure swallowed).  If
the status is in `terminalStatuses`: a completed call not answered by a
human or shorter than 5 seconds takes the SMS-fallback branch, any
non-completed status in the list takes the same branch.  For a
completed call the recording URL is fetched and, when present,
persisted.  The provider always receives `200 Status received`. -/
def handleStatusCallback (req : StatusRequest) (env : StatusEnv) : StatusOutput :=
  let statusWrites : List DbUpdate :=
    if env.dbStatusOk then
      [{ callSid := req.callSid, status := Option.some req.callStatus }]
    else []
  let answeredByHuman : Bool := req.answeredBy == Option.some "human"
  let callDuration : Nat := req.callDuration.getD 0
  let fb : List (String × String) × List DbUpdate :=
    if terminalStatuses.contains req.callStatus then
      if req.callStatus == "completed" && (!answeredByHuman || decide (callDuration < 5)) then
        smsFallbackBranch req env
      else if req.callStatus != "completed" then
        smsFallbackBranch req env
      else ([], [])
    else ([], [])
  let recPart : Bool × List DbUpdate :=
    if req.callStatus == "completed" then
      match env.recordingResult with
      | Option.some url =>
          (true,
           if env.dbRecordingOk then
             [{ callSid := req.callSid, recordingUrl := Option.some url }]
           else [])
      | Option.none => (true, [])
    else (false, [])
  { smsSends := fb.1,
    dbWrites := statusWrites ++ fb.2 ++ recPart.2,
    recordingFetched := recPart.1,
    responseStatus := 200,
    responseBody := "Status received" }

/-- Applying one status-callback event against a persisted store of
past writes: the handler never reads the store (the source only issues
`findOneAndUpdate` writes), so the output depends on the event alone
and the writes are appended. -/
def applyStatusEvent (req : StatusRequest) (env : StatusEnv) (store : List DbUpdate) :
    StatusOutput × List DbUpdate :=
  let out := handleStatusCallback req env
  (out, store ++ out.dbWrites)

/-- The last `status` value carried by a list of writes: the value a
last-write-wins store holds afterwards. -/
def lastStatusWrite (writes : List DbUpdate) : Option String :=
  (writes.filterMap DbUpdate.status).getLast?

/-- How many writes in the list set `status` to `s`. -/
def countStatusWrites (writes : List DbUpdate) (s : String) : Nat :=
  (writes.filterMap DbUpdate.status).count s

/-- The E.164 test of `initiateCall` and `twilioService.makeCall`:
regex `^\+[1-9]\d{1,14}$` — a plus, a nonzero digit, then 1 to 14
further digits. -/
def isValidE164 (s : String) : Bool :=
  match s.toList with
  | '+' :: d :: rest =>
      (d.isDigit && d != '0') && rest.all Char.isDigit &&
        decide (1 ≤ rest.length) && decide (rest.length ≤ 14)
  | _ => false

/-- A call-initiation request: the `phoneNumber` body field. -/
structure InitiateRequest where
  phoneNumber : Option String
deriving DecidableEq

/-- Collaborator outcomes for one `initiateCall` run: the result of
`twilioService.makeCall` (`Option.some (sid, status)` on success,
`Option.none` when the Twilio client throws) and whether
`CallLog.create` succeeds. -/
structure InitiateEnv where
  makeCallResult : Option (String × String)
  dbCreateOk : Bool
deriving DecidableEq

/-- Observable outcome of `initiateCall`: the HTTP response, the phone
numbers for which the external telephony API was invoked, and the
successful store writes. -/
structure InitiateOutput where
  httpStatus : Nat
  success : Bool
  body : String
  telephonyCalls : List String
  dbWrites : List DbUpdate
deriving DecidableEq

/-- `initiateCall` (callController.js lines 51-111).  A missing or
non-E.164 phone number throws a validation `AppError` before
`makeCall`; the handler's own catch-all turns every thrown error into
an HTTP 500 response.  On success the session is stored (write failure
swallowed) and 200 is returned. -/
def initiateCall (req : InitiateRequest) (env : InitiateEnv) : InitiateOutput :=
  match req.phoneNumber with
  | Option.none =>
      { httpStatus := 500, success := false, body := "Failed to initiate call",
        telephonyCalls := [], dbWrites := [] }
  | Option.some pn =>
      if !isValidE164 pn then
        { httpStatus := 500, success := false, body := "Failed to initiate call",
          telephonyCalls := [], dbWrites := [] }
      else
        match env.makeCallResult with
        | Option.none =>
            { httpStatus := 500, success := false, body := "Failed to initiate call",
              telephonyCalls := [pn], dbWrites := [] }
        | Option.some (sid, _st) =>
            { httpStatus := 200, success := true, body := "Call initiated successfully",
              telephonyCalls := [pn],
              dbWrites :=
                if env.dbCreateOk then
                  [{ callSid := sid, status := Option.some "Initiated",
                     patientPhoneNumber := Option.some pn }]
                else [] }

/-- The SMS-fallback sends of a status callback depend only on the
event fields, never on collaborator outcomes. -/
theorem handleStatusCallback_smsSends (req : StatusRequest) (env : StatusEnv) :
    (handleStatusCallback req env).smsSends =
      if terminalStatuses.contains req.callStatus then
        if req.callStatus == "completed" &&
            (!(req.answeredBy == Option.some "human") ||
              decide (req.callDuration.getD 0 < 5)) then
          [(req.toNumber, VOICEMAIL_MESSAGE)]
        else if req.callStatus != "completed" then
          [(req.toNumber, VOICEMAIL_MESSAGE)]
        else []
      else [] := by
  by_cases h1 : req.callStatus ∈ terminalStatuses <;>
    by_cases h2 : req.callStatus = "completed" <;>
    by_cases h3 : req.answeredBy = Option.some "human" <;>
    by_cases h4 : req.callDuration.getD 0 < 5 <;>
    simp [handleStatusCallback, smsFallbackBranch, terminalStatuses, h1, h2, h3, h4] <;>
    (try (split <;> simp))

/-- The recording fetch happens exactly on completed status. -/
theorem handleStatusCallback_recordingFetched (req : StatusRequest) (env : StatusEnv) :
    (handleStatusCallback req env).recordingFetched = (req.callStatus == "completed") := by
  cases h2 : req.callStatus == "completed" <;>
    rcases hr : env.recordingResult with _ | u <;>
    simp [handleStatusCallback, h2, hr]

/-- The provider always receives HTTP 200. -/
theorem handleStatusCallback_responseStatus (req : StatusRequest) (env : StatusEnv) :
    (handleStatusCallback req env).responseStatus = 200 := rfl

/-- The provider always receives the same body text. -/
theorem handleStatusCallback_responseBody (req : StatusRequest) (env : StatusEnv) :
    (handleStatusCallback req env).responseBody = "Status received" := rfl

/-- Full characterization of a status callback for a completed call
not answered by a human: the fallback branch fires once and, when both
the SMS send and its status write succeed, records `SMS Sent` after
the unconditional status write. -/
theorem handleStatusCallback_completed_notHuman (req : StatusRequest) (env : StatusEnv)
    (hc : req.callStatus = "completed") (hb : req.answeredBy ≠ Option.some "human") :
    handleStatusCallback req env =
      { smsSends := [(req.toNumber, VOICEMAIL_MESSAGE)],
        dbWrites :=
          (if env.dbStatusOk then
            [{ callSid := req.callSid, status := Option.some "completed" }]
           else []) ++
          (if env.smsOk && env.dbSmsOk then
            [{ callSid := req.callSid, status := Option.some "SMS Sent" }]
           else []) ++
          (match env.recordingResult with
           | Option.some url =>
               if env.dbRecordingOk then
                 [{ callSid := req.callSid, recordingUrl := Option.some url }]
               else []
           | Option.none => []),
        recordingFetched := true,
        responseStatus := 200,
        responseBody := "Status received" } := by
  have hb' : (req.answeredBy == Option.some "human") = false := beq_eq_false_iff_ne.2 hb
  have hmem : "completed" ∈ terminalStatuses := by decide
  obtain ⟨ds, so, dbs, rr, dr⟩ := env
  rcases rr with _ | u <;> cases ds <;> cases so <;> cases dbs <;> cases dr <;>
    simp [handleStatusCallback, smsFallbackBranch, hc, hb', hmem]

/-- C1: for every transcript the classification chain returns exactly
one verdict among Full, Partial, None and Unclear — never Unknown —
and follows the decision table over the substring, case-insensitive
keyword predicates: a negative match without a positive one gives
None; a positive match without a negative one gives Full; both give
Partial; neither gives Unclear whether or not a medication-context
keyword is present. -/
theorem classify_decision_table (t : String) :
    (classify t ≠ AdherenceStatus.Unknown) ∧
    (classify t = AdherenceStatus.Full ∨ classify t = AdherenceStatus.Partial ∨
      classify t = AdherenceStatus.None ∨ classify t = AdherenceStatus.Unclear) ∧
    (isNegativeResp t = true ∧ isPositiveResp t = false →
      classify t = AdherenceStatus.None) ∧
    (isPositiveResp t = true ∧ isNegativeResp t = false →
      classify t = AdherenceStatus.Full) ∧
    (isPositiveResp t = true ∧ isNegativeResp t = true →
      classify t = AdherenceStatus.Partial) ∧
    (isPositiveResp t = false ∧ isNegativeResp t = false ∧ hasMedicationContext t = false →
      classify t = AdherenceStatus.Unclear) ∧
    (isPositiveResp t = false ∧ isNegativeResp t = false ∧ hasMedicationContext t = true →
      classify t = AdherenceStatus.Unclear) := by
  cases hp : isPositiveResp t <;> cases hn : isNegativeResp t <;>
    cases hm : hasMedicationContext t <;>
    simp [classify, analyzeResponse, hp, hn, hm]

/-- Witness for C1: the decision table applied to a concrete negative
transcript. -/
theorem classify_decision_table_witness :
    classify "No, I forgot to take them" = AdherenceStatus.None :=
  (classify_decision_table "No, I forgot to take them").2.2.1 ⟨by decide, by decide⟩

/-- C4: the voice-leg-entry handler implements the retry policy.
Retry count 0 yields the full initial reminder gathered with next
retry count 1; retry count 1 yields the short re-ask with next retry
count 2; every retry count at or above 2 yields the terminal closing
message with a hangup and no further prompt, identically for all such
counts. -/
theorem handleVoiceCall_retry_policy :
    handleVoiceCall 0 = [TwimlVerb.gather gatherUrl MEDICATION_REMINDER_MESSAGE,
      TwimlVerb.redirect (voiceUrl (Option.some 1))] ∧
    handleVoiceCall 1 = [TwimlVerb.gather gatherUrl REPEAT_MESSAGE,
      TwimlVerb.redirect (voiceUrl (Option.some 2))] ∧
    ∀ n : Nat, 2 ≤ n →
      handleVoiceCall n = [TwimlVerb.say MAX_RETRIES_MESSAGE, TwimlVerb.hangup] ∧
      handleVoiceCall n = handleVoiceCall 2 := by
  refine ⟨rfl, rfl, fun n h => ?_⟩
  have hn : handleVoiceCall n = [TwimlVerb.say MAX_RETRIES_MESSAGE, TwimlVerb.hangup] := by
    simp [handleVoiceCall, ge_iff_le, h]
  exact ⟨hn, hn.trans rfl⟩

/-- Witness for C4: a retry count far beyond the cap still produces
the terminal closing instruction. -/
theorem handleVoiceCall_retry_policy_witness :
    handleVoiceCall 7 = [TwimlVerb.say MAX_RETRIES_MESSAGE, TwimlVerb.hangup] :=
  (handleVoiceCall_retry_policy.2.2 7 (by decide)).1

/-- C5: a gather event whose transcript is blank never invokes the
classifier, performs no store write, emits no adherence reply, and
answers with a single redirect to voice-leg-entry carrying the
incoming retry count plus one. -/
theorem handleGather_empty_redirects (req : GatherRequest) (env : GatherEnv)
    (h : isBlankStr req.speechResult = true) :
    handleGather req env =
      { twiml := [TwimlVerb.redirect (voiceUrl (Option.some (req.retryCountParam.getD 0 + 1)))],
        dbWrites := [],
        classifierInvoked := false } := by
  simp [handleGather, h]

/-- Witness for C5: a whitespace-only transcript with retry count 1
redirects with retry count 2. -/
theorem handleGather_empty_redirects_witness :
    handleGather { speechResult := "   ", callSid := "CA10", retryCountParam := Option.some 1 }
        { dbUpdateOk := true, replyBuildOk := true } =
      { twiml := [TwimlVerb.redirect (voiceUrl (Option.some 2))],
        dbWrites := [],
        classifierInvoked := false } :=
  handleGather_empty_redirects _ _ (by decide)

/-- C8: when the classify/reply-build step throws on a non-blank
transcript, the exception is caught: the handler speaks the generic
acknowledgment and still hangs up the leg. -/
theorem handleGather_failure_generic_ack (req : GatherRequest) (env : GatherEnv)
    (hne : isBlankStr req.speechResult = false) (hfail : env.replyBuildOk = false) :
    (handleGather req env).twiml = [TwimlVerb.say FALLBACK_ACK_MESSAGE, TwimlVerb.hangup] := by
  simp [handleGather, hne, hfail]

/-- Witness for C8: a concrete failing run emits the generic
acknowledgment and a hangup. -/
theorem handleGather_failure_generic_ack_witness :
    (handleGather { speechResult := "yes", callSid := "CA11", retryCountParam := Option.none }
        { dbUpdateOk := true, replyBuildOk := false }).twiml =
      [TwimlVerb.say FALLBACK_ACK_MESSAGE, TwimlVerb.hangup] :=
  handleGather_failure_generic_ack _ _ (by decide) rfl

/-- C3 (code divergence): on the non-blank transcript
"yes I took my pills" the handler marks the session Answered, stores
the transcript, classifies the response as Full and speaks the
positive reply before hanging up — but no store write ever carries an
`adherenceStatus` value, so the computed verdict is not persisted. -/
theorem handleGather_persists_no_adherence :
    handleGather ⟨"yes I took my pills", "CA12", Option.none⟩ ⟨true, true⟩ =
      { twiml := [TwimlVerb.say POSITIVE_RESPONSE_MESSAGE, TwimlVerb.hangup],
        dbWrites := [{ callSid := "CA12", status := Option.some "Answered",
                       patientResponse := Option.some "yes I took my pills" }],
        classifierInvoked := true } ∧
    classify "yes I took my pills" = AdherenceStatus.Full ∧
    ((handleGather ⟨"yes I took my pills", "CA12", Option.none⟩ ⟨true, true⟩).dbWrites.all
      fun w => w.adherenceStatus == Option.none) = true :=
  ⟨by decide, by decide, by decide⟩

/-- C7 (code divergence): a missing or non-E.164 phone number is
rejected before any telephony call, but the controller's catch-all
surfaces the validation error as HTTP 500, not as a client error. -/
theorem initiateCall_invalid_rejected_500 :
    (initiateCall { phoneNumber := Option.some "12345" }
        { makeCallResult := Option.some ("CA1", "queued"), dbCreateOk := true }).telephonyCalls
      = [] ∧
    (initiateCall { phoneNumber := Option.some "12345" }
        { makeCallResult := Option.some ("CA1", "queued"), dbCreateOk := true }).httpStatus
      = 500 ∧
    (initiateCall { phoneNumber := Option.none }
        { makeCallResult := Option.some ("CA1", "queued"), dbCreateOk := true }).telephonyCalls
      = [] ∧
    (initiateCall { phoneNumber := Option.none }
        { makeCallResult := Option.some ("CA1", "queued"), dbCreateOk := true }).httpStatus
      = 500 ∧
    isValidE164 "12345" = false ∧
    isValidE164 "+12345678900" = true := by
  decide

/-- C2: the fallback dispatcher fires exactly when the reported status
is no-answer, busy, failed or canceled, or the call completed without
a human answer or with duration under 5 seconds; it never fires more
than once per event; a completed non-human event dispatches once and,
when the send and its status write succeed, leaves `SMS Sent` as the
final status write; a completed human-answered 10-second event
dispatches nothing and fetches the recording. -/
theorem statusCallback_fallback_spec (req : StatusRequest) (env : StatusEnv) :
    ((handleStatusCallback req env).smsSends ≠ [] ↔
      (req.callStatus = "no-answer" ∨ req.callStatus = "busy" ∨ req.callStatus = "failed" ∨
        req.callStatus = "canceled" ∨
        (req.callStatus = "completed" ∧
          (req.answeredBy ≠ Option.some "human" ∨ req.callDuration.getD 0 < 5)))) ∧
    ((handleStatusCallback req env).smsSends = [] ∨
      (handleStatusCallback req env).smsSends = [(req.toNumber, VOICEMAIL_MESSAGE)]) ∧
    (req.callStatus = "completed" → req.answeredBy ≠ Option.some "human" →
      (handleStatusCallback req env).smsSends = [(req.toNumber, VOICEMAIL_MESSAGE)] ∧
      (env.smsOk = true → env.dbSmsOk = true →
        lastStatusWrite (handleStatusCallback req env).dbWrites = Option.some "SMS Sent")) ∧
    (req.callStatus = "completed" → req.answeredBy = Option.some "human" →
      req.callDuration = Option.some 10 →
      (handleStatusCallback req env).smsSends = [] ∧
      (handleStatusCallback req env).recordingFetched = true) := by
  refine ⟨?_, ?_, ?_, ?_⟩
  · rw [handleStatusCallback_smsSends]
    by_cases h2 : req.callStatus = "completed"
    · by_cases h3 : req.answeredBy = Option.some "human" <;>
        by_cases h4 : req.callDuration.getD 0 < 5 <;>
        simp [h2, h3, h4, terminalStatuses]
    · by_cases h1 : req.callStatus ∈ terminalStatuses
      · have h14 : req.callStatus = "no-answer" ∨ req.callStatus = "busy" ∨
            req.callStatus = "failed" ∨ req.callStatus = "canceled" := by
          simp [terminalStatuses] at h1
          tauto
        simp [h1, h2, h14]
      · have h14 : ¬(req.callStatus = "no-answer" ∨ req.callStatus = "busy" ∨
            req.callStatus = "failed" ∨ req.callStatus = "canceled") := by
          simp [terminalStatuses] at h1
          tauto
        simp [h1, h2]
        tauto
  · rw [handleStatusCallback_smsSends]
    repeat' split
    all_goals simp
  · intro hc hb
    have hb' : (req.answeredBy == Option.some "human") = false := beq_eq_false_iff_ne.2 hb
    constructor
    · rw [handleStatusCallback_smsSends]
      simp [hc, hb', terminalStatuses]
    · intro hs hd
      rw [handleStatusCallback_completed_notHuman req env hc hb]
      rcases hr : env.recordingResult with _ | u <;>
        cases hds : env.dbStatusOk <;> cases hdr : env.dbRecordingOk <;>
        simp [hr, hds, hdr, hs, hd, lastStatusWrite]
  · intro hc hh hd
    have hh' : (req.answeredBy == Option.some "human") = true := beq_iff_eq.mpr hh
    constructor
    · rw [handleStatusCallback_smsSends]
      simp [hc, hh', hd, terminalStatuses]
    · rw [handleStatusCallback_recordingFetched]
      simp [hc]

/-- Witness for C2: a machine-answered completed event dispatches the
fallback SMS once and the final status write is SMS Sent. -/
theorem statusCallback_fallback_spec_witness :
    (handleStatusCallback ⟨"CA100", "completed", "+12345678900", Option.some "machine",
        Option.some 30⟩ ⟨true, true, true, Option.none, true⟩).smsSends =
      [("+12345678900", VOICEMAIL_MESSAGE)] ∧
    lastStatusWrite (handleStatusCallback ⟨"CA100", "completed", "+12345678900",
        Option.some "machine", Option.some 30⟩
        ⟨true, true, true, Option.none, true⟩).dbWrites = Option.some "SMS Sent" := by
  have h := (statusCallback_fallback_spec ⟨"CA100", "completed", "+12345678900",
      Option.some "machine", Option.some 30⟩ ⟨true, true, true, Option.none, true⟩).2.2.1
    rfl (by decide)
  exact ⟨h.1, h.2 rfl rfl⟩

/-- C6 is refuted by the code: replaying the identical completed
status-callback (machine-answered, 3 seconds) against the store left
by its first application sends the fallback SMS a second time and
appends a second `SMS Sent` status write. -/
theorem statusCallback_duplicate_sends_second_sms :
    ((applyStatusEvent ⟨"CA200", "completed", "+12345678900", Option.some "machine",
        Option.some 3⟩ ⟨true, true, true, Option.none, true⟩
        (applyStatusEvent ⟨"CA200", "completed", "+12345678900", Option.some "machine",
          Option.some 3⟩ ⟨true, true, true, Option.none, true⟩ []).2).1.smsSends.length = 1) ∧
    countStatusWrites
      (applyStatusEvent ⟨"CA200", "completed", "+12345678900", Option.some "machine",
        Option.some 3⟩ ⟨true, true, true, Option.none, true⟩
        (applyStatusEvent ⟨"CA200", "completed", "+12345678900", Option.some "machine",
          Option.some 3⟩ ⟨true, true, true, Option.none, true⟩ []).2).2 "SMS Sent" = 2 := by
  decide

/-- C6 (amended): the status-callback handler never reads the store,
so each of two applications of the same completed non-human event
dispatches one fallback SMS and appends one `SMS Sent` write (two in
total); the two applications have identical outputs and the final
persisted status value after the replay is still `SMS Sent`. -/
theorem statusCallback_replay_amended (req : StatusRequest)
    (hc : req.callStatus = "completed") (hb : req.answeredBy ≠ Option.some "human") :
    (applyStatusEvent req ⟨true, true, true, Option.none, true⟩
        (applyStatusEvent req ⟨true, true, true, Option.none, true⟩ []).2).1 =
      (applyStatusEvent req ⟨true, true, true, Option.none, true⟩ []).1 ∧
    (applyStatusEvent req ⟨true, true, true, Option.none, true⟩ []).1.smsSends =
      [(req.toNumber, VOICEMAIL_MESSAGE)] ∧
    (applyStatusEvent req ⟨true, true, true, Option.none, true⟩
        (applyStatusEvent req ⟨true, true, true, Option.none, true⟩ []).2).1.smsSends =
      [(req.toNumber, VOICEMAIL_MESSAGE)] ∧
    countStatusWrites (applyStatusEvent req ⟨true, true, true, Option.none, true⟩ []).2
      "SMS Sent" = 1 ∧
    countStatusWrites (applyStatusEvent req ⟨true, true, true, Option.none, true⟩
        (applyStatusEvent req ⟨true, true, true, Option.none, true⟩ []).2).2 "SMS Sent" = 2 ∧
    lastStatusWrite (applyStatusEvent req ⟨true, true, true, Option.none, true⟩ []).2 =
      Option.some "SMS Sent" ∧
    lastStatusWrite (applyStatusEvent req ⟨true, true, true, Option.none, true⟩
        (applyStatusEvent req ⟨true, true, true, Option.none, true⟩ []).2).2 =
      Option.some "SMS Sent" := by
  have hchar := handleStatusCallback_completed_notHuman req
    ⟨true, true, true, Option.none, true⟩ hc hb
  simp at hchar
  refine ⟨rfl, ?_, ?_, ?_, ?_, ?_, ?_⟩ <;>
    simp [applyStatusEvent, hchar, countStatusWrites, lastStatusWrite]

/-- Witness for C6 (amended): the replay behaviour at a concrete
machine-answered event. -/
theorem statusCallback_replay_amended_witness :
    countStatusWrites (applyStatusEvent ⟨"CA201", "completed", "+15550001111", Option.none,
        Option.some 42⟩ ⟨true, true, true, Option.none, true⟩
        (applyStatusEvent ⟨"CA201", "completed", "+15550001111", Option.none,
          Option.some 42⟩ ⟨true, true, true, Option.none, true⟩ []).2).2 "SMS Sent" = 2 :=
  (statusCallback_replay_amended ⟨"CA201", "completed", "+15550001111", Option.none,
    Option.some 42⟩ rfl (by decide)).2.2.2.2.1

/-- C9: the patient-facing outcome of each webhook handler — HTTP
response, TwiML, SMS dispatches, recording fetch — is identical in two
runs that differ only in whether the call-record store operations
succeed. -/
theorem handlers_output_independent_of_persistence
    (ireq : InitiateRequest) (mk : Option (String × String)) (d1 d2 : Bool)
    (greq : GatherRequest) (rb g1 g2 : Bool)
    (sreq : StatusRequest) (sms : Bool) (rcd : Option String) (a1 a2 b1 b2 c1 c2 : Bool) :
    ((initiateCall ireq ⟨mk, d1⟩).httpStatus = (initiateCall ireq ⟨mk, d2⟩).httpStatus ∧
     (initiateCall ireq ⟨mk, d1⟩).success = (initiateCall ireq ⟨mk, d2⟩).success ∧
     (initiateCall ireq ⟨mk, d1⟩).body = (initiateCall ireq ⟨mk, d2⟩).body ∧
     (initiateCall ireq ⟨mk, d1⟩).telephonyCalls = (initiateCall ireq ⟨mk, d2⟩).telephonyCalls) ∧
    ((handleGather greq ⟨g1, rb⟩).twiml = (handleGather greq ⟨g2, rb⟩).twiml ∧
     (handleGather greq ⟨g1, rb⟩).classifierInvoked =
       (handleGather greq ⟨g2, rb⟩).classifierInvoked) ∧
    ((handleStatusCallback sreq ⟨a1, sms, b1, rcd, c1⟩).smsSends =
       (handleStatusCallback sreq ⟨a2, sms, b2, rcd, c2⟩).smsSends ∧
     (handleStatusCallback sreq ⟨a1, sms, b1, rcd, c1⟩).recordingFetched =
       (handleStatusCallback sreq ⟨a2, sms, b2, rcd, c2⟩).recordingFetched ∧
     (handleStatusCallback sreq ⟨a1, sms, b1, rcd, c1⟩).responseStatus =
       (handleStatusCallback sreq ⟨a2, sms, b2, rcd, c2⟩).responseStatus ∧
     (handleStatusCallback sreq ⟨a1, sms, b1, rcd, c1⟩).responseBody =
       (handleStatusCallback sreq ⟨a2, sms, b2, rcd, c2⟩).responseBody) := by
  refine ⟨?_, ?_, ?_⟩
  · rcases ireq with ⟨pn⟩
    rcases pn with _ | p
    · exact ⟨rfl, rfl, rfl, rfl⟩
    · cases hv : isValidE164 p
      · simp [initiateCall, hv]
      · rcases mk with _ | ⟨sid, st⟩ <;> simp [initiateCall, hv]
  · by_cases hblank : isBlankStr greq.speechResult
    · simp [handleGather, hblank]
    · cases rb <;> simp [handleGather, hblank]
  · exact ⟨by rw [handleStatusCallback_smsSends, handleStatusCallback_smsSends],
      by rw [handleStatusCallback_recordingFetched, handleStatusCallback_recordingFetched],
      rfl, rfl⟩

/-- C10: the gather directive's action URL carries no retry count, so
a gather-result request arriving without a `retryCount` query
parameter that finds no speech always redirects to voice-leg-entry
with retry count 1, whatever the true number of earlier retries. -/
theorem generateTwiml_action_drops_retry (message : String) (nextRetryCount : Nat) :
    generateTwiml message nextRetryCount =
      [TwimlVerb.gather { path := "/api/twilio/gather", retryParam := Option.none } message,
       TwimlVerb.redirect (voiceUrl (Option.some nextRetryCount))] ∧
    ∀ req : GatherRequest, ∀ env : GatherEnv,
      req.retryCountParam = Option.none → isBlankStr req.speechResult = true →
        (handleGather req env).twiml = [TwimlVerb.redirect (voiceUrl (Option.some 1))] := by
  refine ⟨rfl, fun req env hnone hblank => ?_⟩
  simp [handleGather, hblank, hnone]

/-- Witness for C10: an empty gather result with no retry parameter,
after however many prior legs, redirects with retry count 1. -/
theorem generateTwiml_action_drops_retry_witness :
    (handleGather ⟨"", "CA13", Option.none⟩ ⟨true, true⟩).twiml =
      [TwimlVerb.redirect (voiceUrl (Option.some 1))] :=
  (generateTwiml_action_drops_retry "any" 0).2 ⟨"", "CA13", Option.none⟩ ⟨true, true⟩ rfl
    (by decide)

end MedReminder
